import Mathlib

/-!
Verification of awfi (`main.go`), a readiness-polling CLI.

The Go program is shallowly embedded:
* `GoError` models Go `error` values as produced by the program:
  `context.DeadlineExceeded`, `context.Canceled`, `errors.New msg`,
  and `errors.Wrap cause msg`.
* The environment of one probe attempt (network, database) is an explicit
  input: `HttpAttempt` for `checkHttpResource`, `PgAttempt` for
  `checkPostgresResource`.
* `waitForResource` drives a checker: the checker is a function from the
  invocation number to its outcome (`none` = nil error = success), and the
  context is abstracted by `doneAfter`, the number of 1-second ticks the
  `select` delivers before it observes `ctx.Done()`.  This absorbs the
  scheduling nondeterminism of Go's `select` into a parameter.
-/

/-- Go error values as they occur in this program.  `wrapped cause msg` is
`errors.Wrap(cause, msg)` from github.com/pkg/errors; `errorString msg` is
`errors.New(msg)`; the two context sentinels are `context.DeadlineExceeded`
and `context.Canceled`. -/
inductive GoError where
  | deadlineExceeded : GoError
  | canceled : GoError
  | errorString (msg : String) : GoError
  | wrapped (cause : GoError) (msg : String) : GoError
deriving DecidableEq

/-- `isHttpResource` from main.go:
`strings.HasPrefix(resource, "http://") || strings.HasPrefix(resource, "https://")`.
Go strings are modelled as `List Char`; `strings.HasPrefix s p` is
`List.isPrefixOf p s`. -/
def isHttpResource (resource : List Char) : Bool :=
  List.isPrefixOf "http://".toList resource || List.isPrefixOf "https://".toList resource

/-- `isPostgresResource` from main.go:
`strings.HasPrefix(resource, "postgres://") || strings.HasPrefix(resource, "postgresql://")`. -/
def isPostgresResource (resource : List Char) : Bool :=
  List.isPrefixOf "postgres://".toList resource || List.isPrefixOf "postgresql://".toList resource

/-- The resource kinds distinguished by the program (spec §3 ResourceKind). -/
inductive ResourceKind where
  | Http : ResourceKind
  | Postgres : ResourceKind
  | Unsupported : ResourceKind
deriving DecidableEq

/-- The classification performed by `main`: it tests `isHttpResource` first,
then `isPostgresResource`, otherwise the resource is unsupported. -/
def classify (resource : List Char) : ResourceKind :=
  if isHttpResource resource then ResourceKind.Http
  else if isPostgresResource resource then ResourceKind.Postgres
  else ResourceKind.Unsupported

/-- What `main` does with a (present) resource argument: poll it with an
`HttpChecker`, poll it with a `PostgresChecker`, or print
"Unsupported resource type" plus usage and never poll. -/
inductive MainAction where
  | pollHttp : MainAction
  | pollPostgres : MainAction
  | printUnsupported : MainAction
deriving DecidableEq

/-- The dispatch in `main` (the `if / else if / else` on the resource). -/
def mainDispatch (resource : List Char) : MainAction :=
  if isHttpResource resource then MainAction.pollHttp
  else if isPostgresResource resource then MainAction.pollPostgres
  else MainAction.printUnsupported

/-- After `waitForResource` returns, `main` executes
`if err != nil { fmt.Println(err); return }`: a diagnostic is printed iff the
returned error is non-nil. -/
def mainReportsFailure : Option GoError → Bool
  | none => false
  | some _ => true

/-- How a `waitForResource` run ended: `ctxDone` for the `case <-ctx.Done()`
branch, `thresholdReached` for the `return nil` after
`successes >= successThreshold`. -/
inductive ExitPath where
  | ctxDone : ExitPath
  | thresholdReached : ExitPath
deriving DecidableEq

/-- Instrumented result of a `waitForResource` run: the returned `error`
value, the number of times `checker.Check` was invoked, and which return
statement ended the loop. -/
structure WaitResult where
  result : Option GoError
  invocations : Nat
  exitPath : ExitPath
deriving DecidableEq

/-- The loop of `waitForResource` from main.go:

    successes := 0
    var err error
    for {
      select {
      case <-ctx.Done():
        return err
      case <-time.After(time.Second):
        if err = checker.Check(ctx); err == nil {
          successes++
          if successes >= successThreshold { return nil }
        } else {
          successes = 0
        }
      }
    }

`remaining` is how many more ticks the `select` delivers before it observes
`ctx.Done()`; `i` is the index of the next checker invocation (and hence the
number of invocations made so far, the run having started at 0); `successes`
and `lastErr` are the Go local variables `successes` and `err`. -/
def waitForResourceAux (check : Nat → Option GoError) (successThreshold : Int) :
    Nat → Nat → Int → Option GoError → WaitResult
  | 0, i, _, lastErr => ⟨lastErr, i, ExitPath.ctxDone⟩
  | remaining + 1, i, successes, _ =>
    match check i with
    | none =>
      if successes + 1 ≥ successThreshold then ⟨none, i + 1, ExitPath.thresholdReached⟩
      else waitForResourceAux check successThreshold remaining (i + 1) (successes + 1) none
    | some e => waitForResourceAux check successThreshold remaining (i + 1) 0 (some e)

/-- A full instrumented run of `waitForResource`, starting from
`successes = 0` and `err = nil`. -/
def waitForResourceTrace (check : Nat → Option GoError) (successThreshold : Int)
    (doneAfter : Nat) : WaitResult :=
  waitForResourceAux check successThreshold doneAfter 0 0 none

/-- The `error` value `waitForResource` returns. -/
def waitForResource (check : Nat → Option GoError) (successThreshold : Int)
    (doneAfter : Nat) : Option GoError :=
  (waitForResourceTrace check successThreshold doneAfter).result

/-- `waitForHttpResource` from main.go (not called by `main`): the same loop
shape, but on `ctx.Done()` it returns `ctx.Err()` — the context's own
termination reason — and it succeeds on the first nil check. -/
def waitForHttpResource (check : Nat → Option GoError) (ctxErr : GoError) :
    Nat → Nat → Option GoError
  | 0, _ => some ctxErr
  | remaining + 1, i =>
    match check i with
    | none => none
    | some _ => waitForHttpResource check ctxErr remaining (i + 1)

/-- The environment of one `checkHttpResource` attempt:
`http.NewRequestWithContext` may fail, `cx.Do(req)` may fail (transport
error), or a response arrives with a status code and a body whose drain
(`io.Copy(io.Discard, resp.Body)`) either succeeds or yields a read error. -/
inductive HttpAttempt where
  | requestError (e : GoError) : HttpAttempt
  | transportError (e : GoError) : HttpAttempt
  | response (statusCode : Int) (bodyReadError : Option GoError) : HttpAttempt
deriving DecidableEq

/-- Instrumented outcome of `checkHttpResource`: the returned `error`, whether
`resp.Body.Close()` ran (the `defer` registered once a response exists), and
whether the drain `io.Copy(io.Discard, resp.Body)` was executed. -/
structure HttpCheckResult where
  result : Option GoError
  bodyClosed : Bool
  bodyDrained : Bool
deriving DecidableEq

/-- `checkHttpResource` from main.go:

    req, err := http.NewRequestWithContext(...)
    if err != nil { return errors.Wrap(err, "failed to create request") }
    resp, err := cx.Do(req)
    if err != nil { return errors.Wrap(err, "failed to perform request") }
    defer func() { _ = resp.Body.Close() }()
    if resp.StatusCode != http.StatusOK { return errors.New("non-200 status code") }
    _, err = io.Copy(io.Discard, resp.Body)
    if err != nil { return errors.Wrap(err, "failed to read response body") }
    return nil

Note the order: the non-200 return precedes the `io.Copy`, so on a non-200
response the body is closed (by the defer) but never drained. -/
def checkHttpResource : HttpAttempt → HttpCheckResult
  | HttpAttempt.requestError e =>
    ⟨some (GoError.wrapped e "failed to create request"), false, false⟩
  | HttpAttempt.transportError e =>
    ⟨some (GoError.wrapped e "failed to perform request"), false, false⟩
  | HttpAttempt.response statusCode bodyReadError =>
    if statusCode ≠ 200 then ⟨some (GoError.errorString "non-200 status code"), true, false⟩
    else
      match bodyReadError with
      | some e => ⟨some (GoError.wrapped e "failed to read response body"), true, true⟩
      | none => ⟨none, true, true⟩

/-- The environment of one `checkPostgresResource` attempt: `pgx.Connect` may
fail, or it succeeds and the `SELECT 1` row scan either succeeds or yields an
error. -/
inductive PgAttempt where
  | connectError (e : GoError) : PgAttempt
  | connected (queryError : Option GoError) : PgAttempt
deriving DecidableEq

/-- Instrumented outcome of `checkPostgresResource`: the returned `error` and
whether `pgConn.Close` ran (the `defer` registered once the connection
exists). -/
structure PgCheckResult where
  result : Option GoError
  connClosed : Bool
deriving DecidableEq

/-- `checkPostgresResource` from main.go:

    pgConn, err := pgx.Connect(cappedCtx, resource)
    if err != nil { return errors.Wrap(err, "failed to connect to postgres") }
    defer func() { _ = pgConn.Close(cappedCtx) }()
    var one int
    err = pgConn.QueryRow(cappedCtx, "SELECT 1").Scan(&one)
    if err != nil { return errors.Wrap(err, "failed to query postgres") }
    return nil
-/
def checkPostgresResource : PgAttempt → PgCheckResult
  | PgAttempt.connectError e =>
    ⟨some (GoError.wrapped e "failed to connect to postgres"), false⟩
  | PgAttempt.connected (some e) =>
    ⟨some (GoError.wrapped e "failed to query postgres"), true⟩
  | PgAttempt.connected none => ⟨none, true⟩

lemma waitForResourceAux_ctxDone_result (check : Nat → Option GoError) (t : Int) :
    ∀ (remaining i : Nat) (s : Int) (lastErr : Option GoError),
      (waitForResourceAux check t remaining i s lastErr).exitPath = ExitPath.ctxDone →
      (waitForResourceAux check t remaining i s lastErr).result =
        if remaining = 0 then lastErr else check (i + remaining - 1) := by
  intro remaining
  induction remaining with
  | zero => intro i s lastErr _; simp [waitForResourceAux]
  | succ r ih =>
    intro i s lastErr h
    simp only [waitForResourceAux] at h ⊢
    cases hc : check i with
    | none =>
      simp only [hc] at h ⊢
      by_cases ht : s + 1 ≥ t
      · simp [ht] at h
      · simp only [if_neg ht] at h ⊢
        rw [ih (i + 1) (s + 1) none h]
        rcases Nat.eq_zero_or_pos r with hr | hr
        · subst hr; simpa using hc.symm
        · rw [if_neg (by omega), if_neg (by omega)]
          congr 1
          omega
    | some e =>
      simp only [hc] at h ⊢
      rw [ih (i + 1) 0 (some e) h]
      rcases Nat.eq_zero_or_pos r with hr | hr
      · subst hr; simpa using hc.symm
      · rw [if_neg (by omega), if_neg (by omega)]
        congr 1
        omega

lemma waitForResourceAux_allSucceed (N : Int) :
    ∀ (remaining i : Nat) (s : Int) (lastErr : Option GoError),
      s < N → (N - s).toNat ≤ remaining →
      waitForResourceAux (fun _ => none) N remaining i s lastErr =
        ⟨none, i + (N - s).toNat, ExitPath.thresholdReached⟩ := by
  intro remaining
  induction remaining with
  | zero => intro i s lastErr hs hr; exfalso; omega
  | succ r ih =>
    intro i s lastErr hs hr
    simp only [waitForResourceAux]
    by_cases ht : s + 1 ≥ N
    · rw [if_pos ht]
      have h1 : (N - s).toNat = 1 := by omega
      rw [h1]
    · rw [if_neg ht]
      rw [ih (i + 1) (s + 1) none (by omega) (by omega)]
      have h2 : i + 1 + (N - (s + 1)).toNat = i + (N - s).toNat := by omega
      rw [h2]

/-- C1: the claim says that when the context becomes done before the success
threshold is reached, `waitForResource` returns the context's own termination
reason (DeadlineExceeded or Cancelled).  The code instead executes
`return err`, returning the most recent checker error.  Evaluated at a
failing input (threshold 1, a checker that always fails with a wrapped
connection error, context done after 2 ticks): the returned error is the
checker's error, not `deadlineExceeded` and not `canceled`; the checker is
invoked exactly the 2 times before done and never after; and with threshold
2, one successful check, then the context done, the function even returns
nil.  By contrast the dead code `waitForHttpResource` does return
`ctx.Err()`. -/
theorem C1_ctxDone_returns_stale_checker_error :
    waitForResource
        (fun _ => some (GoError.wrapped (GoError.errorString "connection refused")
          "failed to perform request")) 1 2 =
      some (GoError.wrapped (GoError.errorString "connection refused")
        "failed to perform request") ∧
    (∀ reason : GoError,
      waitForResource
          (fun _ => some (GoError.wrapped (GoError.errorString "connection refused")
            "failed to perform request")) 1 2 ≠ some GoError.deadlineExceeded ∧
      waitForResource
          (fun _ => some (GoError.wrapped (GoError.errorString "connection refused")
            "failed to perform request")) 1 2 ≠ some GoError.canceled ∧
      waitForHttpResource
          (fun _ => some (GoError.wrapped (GoError.errorString "connection refused")
            "failed to perform request")) reason 2 0 = some reason) ∧
    (waitForResourceTrace
        (fun _ => some (GoError.wrapped (GoError.errorString "connection refused")
          "failed to perform request")) 1 2).invocations = 2 ∧
    waitForResource (fun _ => none) 2 1 = none := by
  refine ⟨rfl, fun reason => ⟨by decide, by decide, rfl⟩, rfl, rfl⟩

/-- C1 witness: the reason-parametric conjunct instantiated at
`deadlineExceeded`. -/
theorem C1_ctxDone_returns_stale_checker_error_witness :
    waitForHttpResource
        (fun _ => some (GoError.wrapped (GoError.errorString "connection refused")
          "failed to perform request")) GoError.deadlineExceeded 2 0 =
      some GoError.deadlineExceeded :=
  (C1_ctxDone_returns_stale_checker_error.2.1 GoError.deadlineExceeded).2.2

/-- C2: when the run ends through the `ctx.Done()` branch, `waitForResource`
returns the error of the most recent checker invocation — `nil` when no
invocation happened (`doneAfter = 0`) or when the most recent invocation
succeeded — and on a nil result `main` prints no diagnostic, treating the
timed-out or cancelled run as success. -/
theorem C2_ctxDone_returns_last_error
    (check : Nat → Option GoError) (successThreshold : Int) (doneAfter : Nat)
    (h : (waitForResourceTrace check successThreshold doneAfter).exitPath =
      ExitPath.ctxDone) :
    waitForResource check successThreshold doneAfter =
      (if doneAfter = 0 then none else check (doneAfter - 1)) ∧
    (waitForResource check successThreshold doneAfter = none →
      mainReportsFailure (waitForResource check successThreshold doneAfter) = false) := by
  constructor
  · have h2 := waitForResourceAux_ctxDone_result check successThreshold doneAfter 0 0 none h
    simpa [waitForResource, waitForResourceTrace] using h2
  · intro h0
    rw [h0]
    rfl

/-- C2 witness: a checker that fails once with the context done after one
tick; the run returns that failure, the error of the single (most recent)
invocation. -/
theorem C2_ctxDone_returns_last_error_witness :
    waitForResource (fun _ => some (GoError.errorString "dial error")) 1 1 =
      some (GoError.errorString "dial error") := by
  have h := C2_ctxDone_returns_last_error
      (fun _ => some (GoError.errorString "dial error")) 1 1 rfl
  simpa using h.1

/-- C3: the claim says an always-failing checker never yields success and the
run terminates only via DeadlineExceeded.  Evaluated on the code: with the
context already done before the first tick (`--timeout=0`), the loop returns
the initial `var err error`, i.e. nil, after zero invocations, and `main`
prints no diagnostic — an always-failing resource is reported as success;
and when checks do occur before the deadline, the returned error is the
checker's last failure, not `deadlineExceeded`. -/
theorem C3_always_fail_can_return_nil :
    waitForResourceTrace (fun _ => some (GoError.wrapped
        (GoError.errorString "connection refused") "failed to connect to postgres")) 1 0 =
      ⟨none, 0, ExitPath.ctxDone⟩ ∧
    mainReportsFailure (waitForResource (fun _ => some (GoError.wrapped
        (GoError.errorString "connection refused") "failed to connect to postgres")) 1 0) =
      false ∧
    waitForResource (fun _ => some (GoError.wrapped
        (GoError.errorString "connection refused") "failed to connect to postgres")) 1 3 =
      some (GoError.wrapped
        (GoError.errorString "connection refused") "failed to connect to postgres") ∧
    waitForResource (fun _ => some (GoError.wrapped
        (GoError.errorString "connection refused") "failed to connect to postgres")) 1 3 ≠
      some GoError.deadlineExceeded := by
  refine ⟨rfl, rfl, rfl, by decide⟩

/-- C5: the claim says that with requiredSuccesses = 2 and checker outcomes
fail, succeed, fail, fail, … the engine never returns success.  Evaluated on
the code: if the context becomes done right after the interleaved success
(two ticks delivered, e.g. timeout 3s with checks at ≈1s and ≈2s), the loop
returns `err`, which the successful second check reset to nil — so the run
returns nil after 2 invocations, `main` prints nothing, and the caller sees
success.  With a third tick the failure sequence resumes and the run returns
the checker's error (still not `deadlineExceeded`).  The reset itself is
real: after fail, succeed, fail the counter is 0, so even `doneAfter = 100`
never reaches the threshold. -/
theorem C5_fail_succeed_fail_can_return_nil :
    waitForResourceTrace
        (fun i => if i = 1 then none else some (GoError.errorString "dial error")) 2 2 =
      ⟨none, 2, ExitPath.ctxDone⟩ ∧
    mainReportsFailure (waitForResource
        (fun i => if i = 1 then none else some (GoError.errorString "dial error")) 2 2) =
      false ∧
    waitForResource
        (fun i => if i = 1 then none else some (GoError.errorString "dial error")) 2 3 =
      some (GoError.errorString "dial error") ∧
    waitForResourceTrace
        (fun i => if i = 1 then none else some (GoError.errorString "dial error")) 2 100 =
      ⟨some (GoError.errorString "dial error"), 100, ExitPath.ctxDone⟩ := by
  refine ⟨by decide, by decide, by decide, by decide⟩

/-- C4: an always-succeeding checker with requiredSuccesses = N ≥ 1 and the
context done no earlier than the N-th tick makes `waitForResource` return
success (nil) after exactly N checker invocations, through the threshold
return — the counter starts at 0, is incremented once per success, and no
invocation happens after the threshold is reached. -/
theorem C4_always_succeed_exactly_N (N doneAfter : Nat)
    (hN : 1 ≤ N) (hd : N ≤ doneAfter) :
    waitForResourceTrace (fun _ => none) (N : Int) doneAfter =
      ⟨none, N, ExitPath.thresholdReached⟩ ∧
    waitForResource (fun _ => none) (N : Int) doneAfter = none := by
  have h := waitForResourceAux_allSucceed (N : Int) doneAfter 0 0 none
      (by omega) (by omega)
  have hN0 : (((N : Int)) - 0).toNat = N := by omega
  rw [hN0] at h
  constructor
  · simpa [waitForResourceTrace] using h
  · simp [waitForResource, waitForResourceTrace, h]

/-- C4 witness: N = 3, context done after 5 ticks — success after exactly 3
invocations. -/
theorem C4_always_succeed_exactly_N_witness :
    waitForResourceTrace (fun _ => none) ((3 : Nat) : Int) 5 =
      ⟨none, 3, ExitPath.thresholdReached⟩ :=
  (C4_always_succeed_exactly_N 3 5 (by decide) (by decide)).1

/-- C6 counterexample: the claim says that with requiredSuccesses ≤ 0 the
engine returns success without invoking the checker.  With threshold 0, an
always-failing checker, and the context done after 2 ticks, the code invokes
the checker twice and returns the checker's failure, not success. -/
theorem C6_counterexample_checker_still_invoked :
    (waitForResourceTrace (fun _ => some (GoError.errorString "dial error")) 0 2).result =
      some (GoError.errorString "dial error") ∧
    (waitForResourceTrace (fun _ => some (GoError.errorString "dial error")) 0 2).result ≠
      none ∧
    (waitForResourceTrace (fun _ => some (GoError.errorString "dial error")) 0 2).invocations =
      2 := by
  refine ⟨rfl, by decide, rfl⟩

lemma waitForResourceAux_allFail (check : Nat → Option GoError) (t : Int)
    (hfail : ∀ i, check i ≠ none) :
    ∀ (remaining i : Nat) (s : Int) (lastErr : Option GoError),
      (waitForResourceAux check t remaining i s lastErr).exitPath = ExitPath.ctxDone ∧
      (waitForResourceAux check t remaining i s lastErr).invocations = i + remaining := by
  intro remaining
  induction remaining with
  | zero => intro i s lastErr; exact ⟨rfl, rfl⟩
  | succ r ih =>
    intro i s lastErr
    simp only [waitForResourceAux]
    cases hc : check i with
    | none => exact absurd hc (hfail i)
    | some e =>
      simp only [hc]
      have h := ih (i + 1) 0 (some e)
      exact ⟨h.1, by omega⟩

/-- C6 (amended): with requiredSuccesses ≤ 0 the engine does not
short-circuit: it still waits one tick and invokes the checker; the first
successful invocation makes the counter 1 ≥ threshold, so it returns success
after exactly one invocation; and a checker that fails on every invocation
never takes the threshold-success return at all — every such run ends through
the `ctx.Done()` branch, with the checker probed at every tick. -/
theorem C6_nonpositive_threshold_behavior (t : Int) (check : Nat → Option GoError)
    (doneAfter : Nat) (ht : t ≤ 0) :
    (1 ≤ doneAfter → check 0 = none →
      waitForResourceTrace check t doneAfter = ⟨none, 1, ExitPath.thresholdReached⟩) ∧
    ((∀ i, check i ≠ none) →
      (waitForResourceTrace check t doneAfter).exitPath = ExitPath.ctxDone ∧
      (waitForResourceTrace check t doneAfter).invocations = doneAfter) := by
  constructor
  · intro hd h0
    obtain ⟨r, rfl⟩ : ∃ r, doneAfter = r + 1 := ⟨doneAfter - 1, by omega⟩
    simp only [waitForResourceTrace, waitForResourceAux, h0]
    rw [if_pos (by omega)]
  · intro hfail
    have h := waitForResourceAux_allFail check t hfail doneAfter 0 0 none
    exact ⟨h.1, by simpa using h.2⟩

/-- C6 witness: threshold 0 with a checker that succeeds at once and one tick
gives threshold success after exactly one invocation; threshold 0 with an
always-failing checker and three ticks ends through `ctx.Done()` after three
invocations, never through the threshold return. -/
theorem C6_nonpositive_threshold_behavior_witness :
    waitForResourceTrace (fun _ => none) 0 1 = ⟨none, 1, ExitPath.thresholdReached⟩ ∧
    (waitForResourceTrace (fun _ => some (GoError.errorString "dial error")) 0 3).exitPath =
      ExitPath.ctxDone ∧
    (waitForResourceTrace
        (fun _ => some (GoError.errorString "dial error")) 0 3).invocations = 3 := by
  refine ⟨(C6_nonpositive_threshold_behavior 0 (fun _ => none) 1 (by decide)).1
      (by decide) rfl, ?_, ?_⟩
  · exact ((C6_nonpositive_threshold_behavior 0
      (fun _ => some (GoError.errorString "dial error")) 3 (by decide)).2
      (fun i => by decide)).1
  · exact ((C6_nonpositive_threshold_behavior 0
      (fun _ => some (GoError.errorString "dial error")) 3 (by decide)).2
      (fun i => by decide)).2

lemma toList_http : "http://".toList = ['h', 't', 't', 'p', ':', '/', '/'] := rfl

lemma toList_https : "https://".toList = ['h', 't', 't', 'p', 's', ':', '/', '/'] := rfl

lemma toList_postgres :
    "postgres://".toList = ['p', 'o', 's', 't', 'g', 'r', 'e', 's', ':', '/', '/'] := rfl

lemma toList_postgresql :
    "postgresql://".toList =
      ['p', 'o', 's', 't', 'g', 'r', 'e', 's', 'q', 'l', ':', '/', '/'] := rfl

lemma isPrefixOf_head {a b : Char} {as bs s : List Char}
    (ha : List.isPrefixOf (a :: as) s = true) (hb : List.isPrefixOf (b :: bs) s = true) :
    a = b := by
  cases s with
  | nil => simp [List.isPrefixOf] at ha
  | cons c cs =>
    simp only [List.isPrefixOf, Bool.and_eq_true, beq_iff_eq] at ha hb
    rw [ha.1, hb.1]

lemma not_http_of_postgres (resource : List Char)
    (h : isPostgresResource resource = true) : isHttpResource resource = false := by
  rw [isPostgresResource, toList_postgres, toList_postgresql, Bool.or_eq_true] at h
  rw [isHttpResource, toList_http, toList_https]
  apply Bool.or_eq_false_iff.mpr
  constructor <;>
  · apply Bool.eq_false_iff.mpr
    intro hh
    rcases h with h1 | h1 <;> exact absurd (isPrefixOf_head hh h1) (by decide)

/-- C7: classification is a pure, case-sensitive prefix match: an identifier
with prefix `http://` or `https://` classifies as Http; one with prefix
`postgres://` or `postgresql://` classifies as Postgres; every other
identifier (including upper-case variants such as `HTTP://example.com`)
classifies as Unsupported, and an Unsupported identifier is never polled by
`main` (it only prints the unsupported-resource message). -/
theorem C7_classify_prefix_match (resource : List Char) :
    ((List.isPrefixOf "http://".toList resource = true ∨
      List.isPrefixOf "https://".toList resource = true) →
      classify resource = ResourceKind.Http) ∧
    ((List.isPrefixOf "postgres://".toList resource = true ∨
      List.isPrefixOf "postgresql://".toList resource = true) →
      classify resource = ResourceKind.Postgres) ∧
    ((¬ (List.isPrefixOf "http://".toList resource = true ∨
        List.isPrefixOf "https://".toList resource = true ∨
        List.isPrefixOf "postgres://".toList resource = true ∨
        List.isPrefixOf "postgresql://".toList resource = true)) →
      classify resource = ResourceKind.Unsupported) ∧
    (classify resource = ResourceKind.Unsupported →
      mainDispatch resource = MainAction.printUnsupported) ∧
    classify "HTTP://example.com".toList = ResourceKind.Unsupported := by
  refine ⟨?_, ?_, ?_, ?_, by decide⟩
  · intro h
    have hh : isHttpResource resource = true := by
      rw [isHttpResource, Bool.or_eq_true]
      exact h
    rw [classify, if_pos hh]
  · intro h
    have hp : isPostgresResource resource = true := by
      rw [isPostgresResource, Bool.or_eq_true]
      exact h
    rw [classify, not_http_of_postgres resource hp, if_neg (by simp), if_pos hp]
  · intro h
    push_neg at h
    have hh : isHttpResource resource = false := by
      rw [isHttpResource]
      simp only [Bool.or_eq_false_iff]
      exact ⟨Bool.eq_false_iff.mpr (by simpa using h.1),
        Bool.eq_false_iff.mpr (by simpa using h.2.1)⟩
    have hp : isPostgresResource resource = false := by
      rw [isPostgresResource]
      simp only [Bool.or_eq_false_iff]
      exact ⟨Bool.eq_false_iff.mpr (by simpa using h.2.2.1),
        Bool.eq_false_iff.mpr (by simpa using h.2.2.2)⟩
    rw [classify, hh, if_neg (by simp), hp, if_neg (by simp)]
  · intro h
    by_cases hh : isHttpResource resource
    · rw [classify, if_pos hh] at h
      exact absurd h (by simp)
    · by_cases hp : isPostgresResource resource
      · rw [classify, if_neg hh, if_pos hp] at h
        exact absurd h (by simp)
      · rw [mainDispatch, if_neg hh, if_neg hp]

/-- C7 witness: the classifier applied to one identifier of each kind. -/
theorem C7_classify_prefix_match_witness :
    classify "https://example.com".toList = ResourceKind.Http ∧
    classify "postgres://user@localhost:5432/db".toList = ResourceKind.Postgres ∧
    classify "redis://localhost".toList = ResourceKind.Unsupported :=
  ⟨(C7_classify_prefix_match ("https://example.com".toList)).1 (Or.inr (by decide)),
   (C7_classify_prefix_match ("postgres://user@localhost:5432/db".toList)).2.1
     (Or.inl (by decide)),
   (C7_classify_prefix_match ("redis://localhost".toList)).2.2.1 (by decide)⟩

/-- C8: `checkHttpResource` reports success (nil error) iff a response is
received, its status code is exactly 200, and the body drain reads cleanly;
a request-construction error, a transport error, a non-200 status, and a
body-read error each yield a failure carrying its cause (the wrapped
underlying error, or the non-200 message). -/
theorem C8_http_success_iff_200 :
    (∀ a : HttpAttempt, (checkHttpResource a).result = none ↔
      a = HttpAttempt.response 200 none) ∧
    (∀ e : GoError, (checkHttpResource (HttpAttempt.requestError e)).result =
      some (GoError.wrapped e "failed to create request")) ∧
    (∀ e : GoError, (checkHttpResource (HttpAttempt.transportError e)).result =
      some (GoError.wrapped e "failed to perform request")) ∧
    (∀ (code : Int) (bErr : Option GoError), code ≠ 200 →
      (checkHttpResource (HttpAttempt.response code bErr)).result =
        some (GoError.errorString "non-200 status code")) ∧
    (∀ e : GoError, (checkHttpResource (HttpAttempt.response 200 (some e))).result =
      some (GoError.wrapped e "failed to read response body")) := by
  refine ⟨?_, fun e => rfl, fun e => rfl, ?_, fun e => rfl⟩
  · intro a
    cases a with
    | requestError e => simp [checkHttpResource]
    | transportError e => simp [checkHttpResource]
    | response code bErr =>
      by_cases hc : code = 200
      · subst hc
        cases bErr with
        | none => simp [checkHttpResource]
        | some e => simp [checkHttpResource]
      · simp [checkHttpResource, hc]
  · intro code bErr hc
    simp [checkHttpResource, hc]

/-- C8 witness: a 200 response with a clean body read is success; a 503
response is the non-200 failure. -/
theorem C8_http_success_iff_200_witness :
    (checkHttpResource (HttpAttempt.response 200 none)).result = none ∧
    (checkHttpResource (HttpAttempt.response 503 none)).result =
      some (GoError.errorString "non-200 status code") :=
  ⟨(C8_http_success_iff_200.1 (HttpAttempt.response 200 none)).mpr rfl,
   C8_http_success_iff_200.2.2.2.1 503 none (by decide)⟩

/-- C9 counterexample: the claim says the body is fully drained on every
outcome in which a response is received, non-200 failures included.  On a
404 response the code returns at the non-200 check, before `io.Copy`: the
body is closed by the defer but never drained. -/
theorem C9_counterexample_non200_not_drained :
    checkHttpResource (HttpAttempt.response 404 none) =
      ⟨some (GoError.errorString "non-200 status code"), true, false⟩ ∧
    (checkHttpResource (HttpAttempt.response 404 none)).bodyDrained = false := by
  exact ⟨rfl, rfl⟩

/-- C9 (amended): on every outcome in which a response is received the body
is closed, but it is drained only when the status code is exactly 200 (the
drain then precedes the report of success or of a body-read failure); on a
non-200 response the checker reports without draining, and when no response
is received there is no body to close or drain. -/
theorem C9_drain_only_on_200 (code : Int) (bErr : Option GoError) :
    (checkHttpResource (HttpAttempt.response code bErr)).bodyClosed = true ∧
    (code = 200 →
      (checkHttpResource (HttpAttempt.response code bErr)).bodyDrained = true) ∧
    (code ≠ 200 →
      (checkHttpResource (HttpAttempt.response code bErr)).bodyDrained = false) ∧
    (∀ e : GoError, (checkHttpResource (HttpAttempt.requestError e)).bodyClosed = false ∧
      (checkHttpResource (HttpAttempt.requestError e)).bodyDrained = false ∧
      (checkHttpResource (HttpAttempt.transportError e)).bodyClosed = false ∧
      (checkHttpResource (HttpAttempt.transportError e)).bodyDrained = false) := by
  refine ⟨?_, ?_, ?_, fun e => ⟨rfl, rfl, rfl, rfl⟩⟩
  · by_cases hc : code = 200
    · subst hc
      cases bErr with
      | none => rfl
      | some e => rfl
    · simp [checkHttpResource, hc]
  · intro hc
    subst hc
    cases bErr with
    | none => rfl
    | some e => rfl
  · intro hc
    simp [checkHttpResource, hc]

/-- C9 witness: the amended statement at a 200 response (drained) and at a
404 response (closed, not drained). -/
theorem C9_drain_only_on_200_witness :
    (checkHttpResource (HttpAttempt.response 200 none)).bodyDrained = true ∧
    (checkHttpResource (HttpAttempt.response 404 none)).bodyDrained = false ∧
    (checkHttpResource (HttpAttempt.response 404 none)).bodyClosed = true :=
  ⟨(C9_drain_only_on_200 200 none).2.1 rfl,
   (C9_drain_only_on_200 404 none).2.2.1 (by decide),
   (C9_drain_only_on_200 404 none).1⟩

/-- C10: in `checkPostgresResource`, connection-establishment failure and
query-execution failure are two distinct failure stages with distinct cause
tags (`failed to connect to postgres` vs `failed to query postgres`), and a
connection that is established but whose `SELECT 1` fails is reported as a
failure, never as success. -/
theorem C10_pg_two_failure_stages (e : GoError) :
    (checkPostgresResource (PgAttempt.connectError e)).result =
      some (GoError.wrapped e "failed to connect to postgres") ∧
    (checkPostgresResource (PgAttempt.connected (some e))).result =
      some (GoError.wrapped e "failed to query postgres") ∧
    (∀ e2 : GoError, (checkPostgresResource (PgAttempt.connectError e)).result ≠
      (checkPostgresResource (PgAttempt.connected (some e2))).result) ∧
    (checkPostgresResource (PgAttempt.connected (some e))).result ≠ none ∧
    (checkPostgresResource (PgAttempt.connected none)).result = none := by
  refine ⟨rfl, rfl, ?_, by simp [checkPostgresResource], rfl⟩
  intro e2 h
  simp only [checkPostgresResource, Option.some.injEq, GoError.wrapped.injEq] at h
  exact absurd h.2 (by decide)

/-- C10 witness: the two failure stages at a concrete underlying error. -/
theorem C10_pg_two_failure_stages_witness :
    (checkPostgresResource (PgAttempt.connectError
        (GoError.errorString "connection reset"))).result =
      some (GoError.wrapped (GoError.errorString "connection reset")
        "failed to connect to postgres") ∧
    (checkPostgresResource (PgAttempt.connected (some
        (GoError.errorString "connection reset")))).result ≠ none :=
  ⟨(C10_pg_two_failure_stages (GoError.errorString "connection reset")).1,
   (C10_pg_two_failure_stages (GoError.errorString "connection reset")).2.2.2.1⟩
